import Mathlib

/-!
Verification of the nota_db processing pipeline against its specification.

The definitions below are shallow embeddings of the Python source:
  - files/audiveris_processor.py  (resource governor, archive validation)
  - files/music21_analyzer.py     (analysis facets)
  - files/tasks.py                (orchestrator: process_score, cleanup_temp_files)
Machine floats are modelled as rationals, Python exceptions as Except,
Python dictionaries as association lists with Python insertion semantics.

The file is organised as: all definitions first, then all theorems.
-/

namespace NotaDb

/- # DEFINITIONS -/

/- ## String helpers

Python `needle in haystack` is substring containment; `s.lower()` lowercases
each character.  We model both over character lists. -/

/-- Boolean test that the pattern list `p` is an initial segment of `s`. -/
def startsWithL : List Char → List Char → Bool
  | _, [] => true
  | [], _ :: _ => false
  | a :: s, b :: p => a == b && startsWithL s p

/-- Boolean substring containment of pattern `p` inside `s` (Python `p in s`). -/
def hasSubL : List Char → List Char → Bool
  | [], p => p.isEmpty
  | s@(_ :: rest), p => startsWithL s p || hasSubL rest p

/-- Python `p in s` for strings. -/
def hasSubStr (s p : String) : Bool := hasSubL s.toList p.toList

/-- Python `"Error" in s`. -/
def strHasErr (s : String) : Bool := hasSubStr s "Error"

/-- Python `s.lower()` (ASCII is all the source ever compares). -/
def pyLower (s : String) : String := String.mk (s.toList.map Char.toLower)

/-- Python truthiness of a string: non-empty strings are truthy. -/
def truthyStr (s : String) : Bool := !s.isEmpty

/-- Python `name.endswith(suffix)`. -/
def endsWithStr (s suffix : String) : Bool :=
  startsWithL s.toList.reverse suffix.toList.reverse

/-- A Python value, as far as the analysis results need: strings, numbers,
booleans, lists, string-keyed dictionaries and `None`. -/
inductive PyVal where
  | vstr (s : String)
  | vnum (q : ℚ)
  | vbool (b : Bool)
  | vlist (l : List PyVal)
  | vdict (d : List (String × PyVal))
  | vnone

/-- Python dictionary assignment `d[k] = v` on an association list: replaces
in place when the key exists, appends otherwise (insertion order preserved,
first-occurrence position kept). -/
def dictSet (d : List (String × PyVal)) (k : String) (v : PyVal) :
    List (String × PyVal) :=
  if d.any (fun p => p.1 == k) then
    d.map (fun p => if p.1 == k then (k, v) else p)
  else
    d ++ [(k, v)]

/-- Python `d.get(k)` on an association list. -/
def dictGet (d : List (String × PyVal)) (k : String) : Option PyVal :=
  (d.find? (fun p => p.1 == k)).map (fun p => p.2)

/- ## C7 — ResourceConfig.get_memory_allocation (audiveris_processor.py 27-37)

    running_jobs = cache.get("audiveris_running_jobs", 0)
    base_memory = min(2.5, max(1.0, (self.total_memory_gb * 0.6) / max(1, running_jobs)))

`total_memory_gb` is a non-negative integer number of GiB; floats are modelled
as exact rationals. -/

/-- The per-job heap ceiling `base_memory` computed by
`ResourceConfig.get_memory_allocation`. -/
def base_memory (total_memory_gb : ℚ) (running_jobs : ℕ) : ℚ :=
  min 2.5 (max 1.0 ((total_memory_gb * 0.6) / (max 1 running_jobs : ℕ)))

/-- The spec's description: `clamp(0.6 * total_memory_GB / max(1, running_jobs))`
to the interval [1.0, 2.5], written in the conventional clamp form
`max lo (min hi x)`. -/
def clampSpec (lo hi x : ℚ) : ℚ := max lo (min hi x)

/- ## C8 — archive validation (audiveris_processor.py 253-272, tasks.py 144-182)

    mxl_files = [f for f in os.listdir(temp_dir) if f.endswith(".mxl")]
    if not mxl_files: raise Exception("No MusicXML files generated. ...")
    mxl_size = os.path.getsize(temp_mxl_path)
    if mxl_size < 100: raise Exception("Generated MusicXML file is too small ...")

Both call sites use the strict comparison `mxl_size < 100`. -/

/-- The size guard applied to the generated archive: raises (returns an error)
exactly when `mxl_size < 100`. -/
def validateMxlSize (mxl_size : ℕ) : Except String Unit :=
  if mxl_size < 100 then
    Except.error "Generated MusicXML file is too small"
  else
    Except.ok ()

/-- The locate-and-validate step of the recognition invoker: scan the output
directory listing (name, size) for `.mxl` entries, fail when none exists, then
apply the size guard to the first one found. -/
def locateAndValidateMxl (entries : List (String × ℕ)) :
    Except String (String × ℕ) :=
  match entries.filter (fun e => endsWithStr e.1 ".mxl") with
  | [] => Except.error "No MusicXML files generated"
  | f :: _ =>
    match validateMxlSize f.2 with
    | Except.error e => Except.error e
    | Except.ok _ => Except.ok f

/- ## C9 — cleanup_temp_files (tasks.py 755-771)

    @shared_task
    def cleanup_temp_files(score_id):
        try:
            temp_dir = settings.TEMP_STORAGE_DIR / str(score_id)
            if temp_dir.exists():
                shutil.rmtree(temp_dir)
                logger.info("Cleaned up ...")
            else:
                logger.warning("Temporary directory does not exist: ...")
        except Exception as e:
            logger.error("Error cleaning up ...")
            raise

The job's persisted record is opaque to this task; it never touches it.  The
environment tells whether the directory exists and whether `rmtree` raises. -/

/-- Abstract persisted job record (cleanup never reads or writes it). -/
structure JobRecord where
  processed : Bool
  results : String
  deriving DecidableEq, Repr

/-- Result of one run of `cleanup_temp_files`: the outcome (an `error` means
the exception was re-raised to the caller), the persisted record afterwards,
and the log lines emitted. -/
structure CleanupRun where
  outcome : Except String Unit
  record : JobRecord
  logs : List String
  deriving Repr

/-- Shallow embedding of `cleanup_temp_files`: `dirExists` is whether the
job's temp directory exists, `rmtreeOk` whether `shutil.rmtree` succeeds. -/
def cleanup_temp_files (dirExists rmtreeOk : Bool) (record : JobRecord) :
    CleanupRun :=
  if dirExists then
    if rmtreeOk then
      { outcome := Except.ok (), record := record,
        logs := ["Cleaned up temporary files"] }
    else
      -- except clause: log the error, then `raise` re-raises it
      { outcome := Except.error "Error cleaning up temporary files",
        record := record,
        logs := ["Error cleaning up temporary files"] }
  else
    { outcome := Except.ok (), record := record,
      logs := ["Temporary directory does not exist"] }

/- ## C2 — cleanup scheduling in process_score (tasks.py 35-752)

The task body is one big `try:`; `cleanup_temp_files.apply_async(...)` sits at
its very end (line 740).  The outer `except Exception` (line 747) saves a
failure state and re-raises WITHOUT scheduling cleanup.  Inner blocks that
swallow their exceptions (URL setting, MIDI, every analysis facet, the XML
extraction/copy blocks, the save handler) cannot abort the task and are noted
in comments below; every abort point that reaches the outer handler is an
explicit environment condition. -/

/-- Outcome of the external Audiveris subprocess invocation. -/
inductive AudiverisOutcome where
  | ok
  | timedOut
  | procErr (stderr : String)
  deriving Repr

/-- Environment for one run of `process_score`: the outcome of each fallible
step that can reach the outer exception handler. -/
structure PipelineEnv where
  /-- `PDFFile.objects.get(id=score_id)` succeeds. -/
  fetchOk : Bool
  /-- the uploaded input file exists at `TEMP_STORAGE_DIR/<id>/input.<ext>`. -/
  inputExists : Bool
  /-- the `/app/audiveris` directory exists. -/
  audiverisDirExists : Bool
  /-- result of the Audiveris subprocess. -/
  audiverisOutcome : AudiverisOutcome
  /-- directory listing of the Audiveris output directory (name, size). -/
  outputFiles : List (String × ℕ)
  /-- `os.rename` to `output.mxl` succeeds and the renamed file exists. -/
  renameOk : Bool
  /-- `converter.parse(output_mxl_path)` (line 301, unguarded) succeeds. -/
  parseOk : Bool
  /-- the `score.save()` at line 718 succeeds. -/
  saveOk : Bool
  /-- the `score.save()` at line 726, inside the save-failure handler,
  succeeds. -/
  saveInHandlerOk : Bool

/-- The body of the outer `try:` of `process_score`, up to and excluding the
cleanup scheduling: `Except.error` means an exception reaches the outer
handler at line 747. -/
def processScoreBody (e : PipelineEnv) : Except String Unit := do
  if !e.fetchOk then
    throw "PDFFile matching query does not exist"
  if !e.inputExists then
    throw "File not found"
  if !e.audiverisDirExists then
    throw "Audiveris directory does not exist"
  -- subprocess.run with classification of stderr diagnostics (lines 97-142)
  match e.audiverisOutcome with
  | AudiverisOutcome.ok => pure ()
  | AudiverisOutcome.timedOut =>
      throw "Audiveris processing timed out - file may be too complex or large"
  | AudiverisOutcome.procErr stderr =>
      if hasSubStr stderr "too low interline value" then
        throw "Image resolution too low for music recognition"
      else if hasSubStr stderr
          "Could not export since transcription did not complete successfully" then
        throw "Music recognition failed"
      else if hasSubStr stderr "OutOfMemoryError" then
        throw "Image too large to process"
      else
        throw ("Audiveris processing failed: " ++ stderr)
  -- locate and validate the generated .mxl (lines 144-182)
  match e.outputFiles.filter (fun f => endsWithStr f.1 ".mxl") with
  | [] => throw "No MusicXML files generated."
  | f :: _ =>
      if f.2 < 100 then
        throw "Generated MusicXML file appears to be empty or corrupt"
      else pure ()
  if !e.renameOk then
    throw "Renamed MusicXML file does not exist"
  -- XML extraction for serving (199-232) and copy to output dir (234-293):
  -- both wrapped in try/except blocks that log and continue; cannot abort.
  if !e.parseOk then
    throw "converter.parse failed"
  -- URL setting, MIDI generation and every analysis facet (309-657): each
  -- individually guarded with except-handlers that record an error marker
  -- and continue; cannot abort.
  -- save block (672-734): a failing save is caught by its inner handler,
  -- whose own save() call may itself raise out of the task.
  if e.saveOk then pure ()
  else if e.saveInHandlerOk then pure ()
  else throw "Error saving analysis"

/-- Observable result of one `process_score` run for this claim: how many
deferred cleanups were scheduled and whether the task re-raised. -/
structure PipelineRun where
  cleanupScheduled : ℕ
  raised : Bool
  deriving DecidableEq, Repr

/-- Shallow embedding of `process_score` restricted to control flow: on a
clean body the cleanup task is scheduled once (line 740); on an exception the
outer handler saves a failure state and re-raises, scheduling nothing. -/
def process_score (e : PipelineEnv) : PipelineRun :=
  match processScoreBody e with
  | Except.ok _ => { cleanupScheduled := 1, raised := false }
  | Except.error _ => { cleanupScheduled := 0, raised := true }

/- ## C1 — the "processed" determination (tasks.py 672-718)

    core_valid = (
        analysis.get("key") and "Error" not in str(analysis["key"])
        and analysis.get("parts") and "Error" not in str(analysis["parts"])
        and analysis.get("chords") is not None        # Allow empty chord list
        and analysis.get("time_signature") and "Error" not in str(analysis["time_signature"])
        and score.musicxml_url and "Error" not in score.musicxml_url)
    midi_valid = score.midi_url and "Error" not in score.midi_url
    additional_valid = (analysis.get("notable_elements") is not None
        and analysis.get("score_structure") is not None)
    score.processed = core_valid and additional_valid

For a list of plain strings, `"Error" in str(lst)` holds exactly when some
element contains `"Error"` (Python's repr escapes only backslashes and
quotes, which can neither destroy nor create an occurrence of `Error`), so
the parts check is modelled element-wise. -/

/-- One element of the persisted `chords` list: a `{"pitch": ..., "offset":
...}` record on success, or the bare error string appended by the chord
handler (`analysis["chords"] = [f"Error: {e}"]`). -/
inductive ChordElem where
  | entry (pitch : String) (offset : ℚ)
  | errStr (s : String)

/-- A dict-valued facet as persisted: the real data dictionary, or the
`{"error": f"Error: {e}"}` marker written by the facet's except-handler. -/
inductive FacetField where
  | data (v : PyVal)
  | err (msg : String)

/-- The analysis dictionary of `process_score` as it stands at save time
(line 674).  The `Option` wrappers reflect the `.get(...) is None` tests the
save code performs. -/
structure TaskAnalysis where
  key : String
  parts : List String
  chords : Option (List ChordElem)
  time_signature : String
  notable_elements : Option FacetField
  score_structure : Option FacetField

/-- `core_valid` of tasks.py lines 676-686. -/
def core_valid (a : TaskAnalysis) (musicxml_url : String) : Bool :=
  truthyStr a.key && !strHasErr a.key &&
  !a.parts.isEmpty && !(a.parts.any strHasErr) &&
  a.chords.isSome &&
  truthyStr a.time_signature && !strHasErr a.time_signature &&
  truthyStr musicxml_url && !strHasErr musicxml_url

/-- `midi_valid` of tasks.py line 688 (computed, logged, and not used for the
processed flag). -/
def midi_valid (midi_url : String) : Bool :=
  truthyStr midi_url && !strHasErr midi_url

/-- `additional_valid` of tasks.py lines 690-693. -/
def additional_valid (a : TaskAnalysis) : Bool :=
  a.notable_elements.isSome && a.score_structure.isSome

/-- The processed flag assigned at tasks.py line 695:
`score.processed = core_valid and additional_valid`.  `midi_url` is taken as
an argument to state that it does not influence the result. -/
def save_results (a : TaskAnalysis) (musicxml_url midi_url : String) : Bool :=
  core_valid a musicxml_url && additional_valid a

/-- Claim-side predicate (from the claim's words): one chords element carries
an error marker. -/
def chordElemHasErr : ChordElem → Bool
  | ChordElem.entry _ _ => false
  | ChordElem.errStr s => strHasErr s

/-- Claim-side predicate: the facet field is the error-marker dictionary. -/
def facetFieldIsErr : FacetField → Bool
  | FacetField.data _ => false
  | FacetField.err _ => true

/-- Claim-side predicate (from the claim's words): the five core facets key,
parts, chords, time_signature, notable_elements are each present and free of
error markers (chords may be the empty list). -/
def coreFacetsErrFree (a : TaskAnalysis) : Bool :=
  !strHasErr a.key &&
  !(a.parts.any strHasErr) &&
  (match a.chords with
   | some l => !(l.any chordElemHasErr)
   | none => false) &&
  !strHasErr a.time_signature &&
  (match a.notable_elements with
   | some f => !facetFieldIsErr f
   | none => false)

/-- A save-time analysis state that is reachable in the code (chord analysis
and notable-elements analysis both raised; everything else succeeded). -/
def analysisWithChordError : TaskAnalysis :=
  { key := "C major"
    parts := ["Soprano", "Alto"]
    chords := some [ChordElem.errStr "Error: division by zero"]
    time_signature := "4/4"
    notable_elements := some (FacetField.err "Error: attribute missing")
    score_structure := some (FacetField.data (PyVal.vdict [])) }

/-- A fully healthy save-time analysis state. -/
def analysisAllGood : TaskAnalysis :=
  { key := "G major"
    parts := ["Piano"]
    chords := some []
    time_signature := "3/4"
    notable_elements := some (FacetField.data (PyVal.vdict []))
    score_structure := some (FacetField.data (PyVal.vdict [])) }

/- ## C10 — instrumentation facet (music21_analyzer.py 436-533)

The `family_mapping` dict literal lists "bass" twice: once with "strings"
(line 453) and once with "vocal" (line 470).  Python dict-literal semantics
keep the FIRST occurrence's position and the LAST occurrence's value, so the
mapping iterates with "bass" → "vocal" in fifth position.  Matching walks the
mapping in insertion order and takes the first keyword that occurs as a
substring of the lowered name.  The part name is consulted only when the part
has no Instrument element at all. -/

/-- Python dict assignment for string-valued dicts (position of first
occurrence, value of last). -/
def strDictInsert (d : List (String × String)) (kv : String × String) :
    List (String × String) :=
  if d.any (fun p => p.1 == kv.1) then
    d.map (fun p => if p.1 == kv.1 then (p.1, kv.2) else p)
  else
    d ++ [kv]

/-- The `family_mapping` dict literal's entries in source order, including
the duplicate "bass" key (lines 448-471). -/
def familyEntries : List (String × String) :=
  [("piano", "keyboard"),
   ("violin", "strings"), ("viola", "strings"), ("cello", "strings"),
   ("bass", "strings"), ("guitar", "strings"),
   ("flute", "woodwinds"), ("clarinet", "woodwinds"), ("oboe", "woodwinds"),
   ("bassoon", "woodwinds"), ("saxophone", "woodwinds"),
   ("trumpet", "brass"), ("horn", "brass"), ("trombone", "brass"),
   ("tuba", "brass"),
   ("drums", "percussion"), ("timpani", "percussion"),
   ("voice", "vocal"), ("soprano", "vocal"), ("alto", "vocal"),
   ("tenor", "vocal"), ("bass", "vocal")]

/-- The `family_mapping` dictionary as Python evaluates the literal. -/
def family_mapping : List (String × String) :=
  familyEntries.foldl strDictInsert []

/-- The matching loop
`for keyword, family in family_mapping.items(): if keyword in name: ...; break`
with the initial value "unknown". -/
def lookupFamily : List (String × String) → String → String
  | [], _ => "unknown"
  | (kw, fam) :: rest, nameLower =>
    if hasSubStr nameLower kw then fam else lookupFamily rest nameLower

/-- Per-part family classification (lines 485-506): when the part has an
Instrument element, only the instrument name (empty when None) is matched;
otherwise the part name is matched. -/
def instrument_family (hasInstrElem : Bool) (elemName : Option String)
    (partName : String) : String :=
  if hasInstrElem then
    lookupFamily family_mapping (pyLower (elemName.getD ""))
  else
    lookupFamily family_mapping (pyLower partName)

/- ## C5 — ensemble detection (music21_analyzer.py 737-796) -/

/-- A part as `_detect_ensemble_type` consumes it: its resolved name in
`score_structure["parts"]` and the MIDI numbers of its notes. -/
structure EnsePart where
  name : String
  notesMidi : List ℤ

/-- The vocal role names of the quick SATB name check (line 745). -/
def satbRoles : List String := ["soprano", "alto", "tenor", "bass"]

/-- The SATB MIDI range table (line 782). -/
def satbRanges : List (ℤ × ℤ) := [(60, 84), (53, 72), (48, 67), (36, 60)]

/-- `min(midi_pitches), max(midi_pitches)` for a part, `None` when the part
has no pitched notes (lines 764-779). -/
def pitchRange (p : EnsePart) : Option (ℤ × ℤ) :=
  match p.notesMidi with
  | [] => none
  | m :: rest => some (rest.foldl min m, rest.foldl max m)

/-- The `is_satb` range test (lines 783-788): every part must have notes and
fit its SATB range with a 5-semitone tolerance on both edges. -/
def rangesFitSATB (parts : List EnsePart) : Bool :=
  ((parts.map pitchRange).zip satbRanges).all fun pr =>
    match pr.1 with
    | none => false
    | some lohi => decide (pr.2.1 - 5 ≤ lohi.1) && decide (lohi.2 ≤ pr.2.2 + 5)

/-- Shallow embedding of `_detect_ensemble_type`, returning the ensemble type
and the (possibly overwritten) `score_structure["parts"]` names.  The
source's `if any(piano): if len <= 2: return "Piano Solo"` falls through to
the violin test when the part count exceeds 2, which is exactly the
conjunctive condition used here. -/
def detect_ensemble_type (parts : List EnsePart) (instruments : List String) :
    String × List String :=
  if parts.length == 4 &&
      ((parts.map (fun p => pyLower p.name)).all fun n =>
        satbRoles.any fun role => hasSubStr n role) then
    ("SATB", parts.map (fun p => p.name))
  else if (instruments.any fun i => hasSubStr (pyLower i) "piano") &&
      decide (parts.length ≤ 2) then
    ("Piano Solo", parts.map (fun p => p.name))
  else if (instruments.any fun i => hasSubStr (pyLower i) "violin") &&
      parts.length == 4 then
    ("String Quartet", parts.map (fun p => p.name))
  else if parts.length == 4 then
    if rangesFitSATB parts then
      ("SATB", ["Soprano", "Alto", "Tenor", "Bass"])
    else
      ("Custom Ensemble", parts.map (fun p => p.name))
  else
    ("Custom Ensemble", parts.map (fun p => p.name))

/- Spec-side rules, one per clause of the claim's ordered fallback chain. -/

/-- Claim rule (1): 4 parts all named with SATB roles. -/
def ruleNamedSATB (parts : List EnsePart) : Bool :=
  parts.length == 4 &&
    ((parts.map (fun p => pyLower p.name)).all fun n =>
      satbRoles.any fun role => hasSubStr n role)

/-- Claim rule (2): some instrument name contains "piano" and part count ≤ 2. -/
def rulePianoSolo (parts : List EnsePart) (instruments : List String) : Bool :=
  (instruments.any fun i => hasSubStr (pyLower i) "piano") &&
    decide (parts.length ≤ 2)

/-- Claim rule (3): some instrument name contains "violin" and exactly 4 parts. -/
def ruleStringQuartet (parts : List EnsePart) (instruments : List String) : Bool :=
  (instruments.any fun i => hasSubStr (pyLower i) "violin") &&
    parts.length == 4

/-- Claim rule (4): 4 parts whose pitch ranges fit the SATB table with a
5-semitone tolerance. -/
def ruleRangeSATB (parts : List EnsePart) : Bool :=
  parts.length == 4 && rangesFitSATB parts

/-- The claim's ordered fallback chain, first match wins; rule (4) overwrites
the part names with the canonical SATB labels. -/
def ensembleChainSpec (parts : List EnsePart) (instruments : List String) :
    String × List String :=
  if ruleNamedSATB parts then ("SATB", parts.map (fun p => p.name))
  else if rulePianoSolo parts instruments then
    ("Piano Solo", parts.map (fun p => p.name))
  else if ruleStringQuartet parts instruments then
    ("String Quartet", parts.map (fun p => p.name))
  else if ruleRangeSATB parts then ("SATB", ["Soprano", "Alto", "Tenor", "Bass"])
  else ("Custom Ensemble", parts.map (fun p => p.name))

/-- A 4-part score named exactly Soprano/Alto/Tenor/Bass whose pitch ranges
(every note at MIDI 20) cannot satisfy the SATB range table. -/
def satbNamedLowParts : List EnsePart :=
  [{ name := "Soprano", notesMidi := [20] },
   { name := "Alto", notesMidi := [20] },
   { name := "Tenor", notesMidi := [20] },
   { name := "Bass", notesMidi := [20] }]

/- ## C6 — music_type classification (music21_analyzer.py 323-372)

    lyrics_found  — true when ANY note of ANY part has lyrics (the scan stops
                    at the first hit, lines 337-342)
    music_type = ("vocal" if all("voice" in instr.lower()
                       or part_name.lower() in ["soprano","alto","tenor","bass"]
                       for instr, part_name in zip(instruments, parts))
                  else "mixed") if lyrics_found else "instrumental"
-/

/-- A part as the music-type classification consumes it: its name in
`score_structure["parts"]`, its truthy instrument name if the part has an
Instrument element with one (otherwise the part name is used, line 333), and
whether any of its notes carries lyrics. -/
structure VocalPart where
  name : String
  instrName : Option String
  hasLyrics : Bool

/-- Shallow embedding of the music-type classification. -/
def music_type (parts : List VocalPart) : String :=
  let instruments := parts.map fun p => p.instrName.getD p.name
  let lyricsFound := parts.any fun p => p.hasLyrics
  if lyricsFound then
    if (instruments.zip (parts.map fun p => p.name)).all
        (fun pr => hasSubStr (pyLower pr.1) "voice" ||
          satbRoles.contains (pyLower pr.2)) then
      "vocal"
    else
      "mixed"
  else
    "instrumental"

/-- An SATB-named choir with lyrics on the soprano part only. -/
def satbLyricsOnSoprano : List VocalPart :=
  [{ name := "Soprano", instrName := none, hasLyrics := true },
   { name := "Alto", instrName := none, hasLyrics := false },
   { name := "Tenor", instrName := none, hasLyrics := false },
   { name := "Bass", instrName := none, hasLyrics := false }]

/- ## C3 — analyze_with_music21 result shape (music21_analyzer.py 799-915)

On a successful parse the analysis dict starts from the literal of lines
812-821 (eight keys) and is filled by the assignments of lines 845-854 and
the text-content block of lines 856-875.  When `converter.parse` raises, the
except block of lines 900-915 returns a fixed dictionary literal.  Each
optimizer facet method is internally guarded and always returns a value (an
error marker on internal failure), so its result is an input here. -/

/-- The values produced by the eleven guarded facet computations (each
optimizer method catches its own exceptions and always yields a value). -/
structure FacetOutcomes where
  keyV : PyVal
  partsV : PyVal
  chordsV : PyVal
  tsV : PyVal
  notableV : PyVal
  structV : PyVal
  measuresV : PyVal
  instrV : PyVal
  meterV : PyVal
  tempoV : PyVal
  textV : PyVal

/-- The initial analysis dict literal (lines 812-821), in source key order. -/
def initAnalysis : List (String × PyVal) :=
  [("key", PyVal.vnone), ("measures", PyVal.vdict []),
   ("instrumentation", PyVal.vdict []), ("tempo", PyVal.vdict []),
   ("meter_changes", PyVal.vdict []), ("parts", PyVal.vlist []),
   ("chords", PyVal.vlist []), ("time_signature", PyVal.vnone)]

/-- The successful-parse branch: the assignment sequence of lines 845-854
followed by the text_content assignment (lines 856-875). -/
def successAnalysis (f : FacetOutcomes) : List (String × PyVal) :=
  let d1 := dictSet initAnalysis "key" f.keyV
  let d2 := dictSet d1 "parts" f.partsV
  let d3 := dictSet d2 "chords" f.chordsV
  let d4 := dictSet d3 "time_signature" f.tsV
  let d5 := dictSet d4 "notable_elements" f.notableV
  let d6 := dictSet d5 "score_structure" f.structV
  let d7 := dictSet d6 "measures" f.measuresV
  let d8 := dictSet d7 "instrumentation" f.instrV
  let d9 := dictSet d8 "meter_changes" f.meterV
  let d10 := dictSet d9 "tempo" f.tempoV
  dictSet d10 "text_content" f.textV

/-- The parse-failure dictionary literal (lines 902-915), in source key
order; `e` is the parse exception's message. -/
def errorAnalysis (e : String) : List (String × PyVal) :=
  [("error", PyVal.vstr ("Analysis failed: " ++ e)),
   ("key", PyVal.vstr "Error"),
   ("parts", PyVal.vlist [PyVal.vstr "Error"]),
   ("chords", PyVal.vlist []),
   ("time_signature", PyVal.vstr "Error"),
   ("notable_elements", PyVal.vdict [("error", PyVal.vstr e)]),
   ("score_structure", PyVal.vdict [("error", PyVal.vstr e)]),
   ("text_content", PyVal.vdict [("error", PyVal.vstr e)]),
   ("tempo", PyVal.vdict [("error", PyVal.vstr e)]),
   ("meter_changes", PyVal.vdict [("error", PyVal.vstr e)]),
   ("measures", PyVal.vdict [("error", PyVal.vstr e)]),
   ("instrumentation", PyVal.vdict [("error", PyVal.vstr e)])]

/-- Shallow embedding of `analyze_with_music21`: the argument is the outcome
of `converter.parse` together with the guarded facet results. -/
def analyze_with_music21 (parseRes : Except String FacetOutcomes) :
    List (String × PyVal) :=
  match parseRes with
  | Except.ok f => successAnalysis f
  | Except.error e => errorAnalysis e

/-- The eleven facet keys named by the claim. -/
def facetKeys : List String :=
  ["key", "parts", "chords", "time_signature", "notable_elements",
   "score_structure", "measures", "instrumentation", "meter_changes",
   "tempo", "text_content"]

/-- Claim-side predicate: the value is an error marker — a string containing
"Error", a list holding such a string, or a dict with an "error" key. -/
def isErrMarker : PyVal → Bool
  | PyVal.vstr s => strHasErr s
  | PyVal.vlist l =>
    l.any fun v =>
      match v with
      | PyVal.vstr s => strHasErr s
      | _ => false
  | PyVal.vdict d => d.any fun p => p.1 == "error"
  | _ => false

/-- The per-facet guard pattern of every dict-valued optimizer method
(`except Exception as e: cache[key] = {"error": f"Error: {e}"}`). -/
def facetGuardDict (body : Except String PyVal) : PyVal :=
  match body with
  | Except.ok v => v
  | Except.error e => PyVal.vdict [("error", PyVal.vstr ("Error: " ++ e))]

/-- The guard pattern of the string-valued facets key and time_signature
(`cache[key] = f"Error: {e}"`). -/
def facetGuardStr (body : Except String String) : String :=
  match body with
  | Except.ok s => s
  | Except.error e => "Error: " ++ e

/-- The guard pattern of the list-valued facets parts and chords
(`cache[key] = [f"Error: {e}"]`). -/
def facetGuardList (body : Except String (List PyVal)) : List PyVal :=
  match body with
  | Except.ok l => l
  | Except.error e => [PyVal.vstr ("Error: " ++ e)]

/- ## C4 — analyze_tempo (music21_analyzer.py 605-726) and the module
imports (lines 1-16)

The module binds exactly these names at module scope:

    from music21: converter, chord, meter, note, articulations,
                  dynamics, stream, instrument, layout
    the modules logging and json
    from typing: Dict, List, Any, Optional, Tuple
    from collections: defaultdict, Counter
    from django.conf: settings
    logger = logging.getLogger(__name__)

`analyze_tempo`'s try block evaluates `tempo.TempoIndication` (line 620); no
binding for `tempo` exists, so a NameError is raised and caught, and the
facet is cached as `{"error": f"Error: {e}"}`.  The body the try block would
compute is embedded below and is unreachable. -/

/-- The names bound at module scope of files/music21_analyzer.py. -/
def music21AnalyzerModuleNames : List String :=
  ["converter", "chord", "meter", "note", "articulations", "dynamics",
   "stream", "instrument", "layout", "logging", "json", "Dict", "List",
   "Any", "Optional", "Tuple", "defaultdict", "Counter", "settings",
   "logger", "MusicAnalysisOptimizer", "analyze_with_music21"]

/-- A `tempo.TempoIndication` as `analyze_tempo` reads it: its text, offset
and the result of `getSoundingQuarterBPM()` (`none` when the call raises or
yields None). -/
structure TempoIndic where
  text : String
  offset : ℚ
  soundingQuarterBPM : Option ℚ

/-- A `tempo.MetronomeMark` as `analyze_tempo` reads it: its text, offset and
`number` attribute (None for text-only marks). -/
structure MetroMark where
  text : String
  offset : ℚ
  number : Option ℚ

/-- The tempo-related content of a parsed score, plus the result of the
`metronomeMarkBoundaries()` estimation fallback (outer `none` when it raises
or finds nothing; the inner option is the boundary mark's `number`). -/
structure TempoScore where
  tempo_indications : List TempoIndic
  metronome_marks : List MetroMark
  estimated : Option (Option ℚ)

/-- One entry of `tempo_data["tempo_markings"]`. -/
structure TempoMarking where
  type : String
  text : String
  offset : ℚ
  bpm : Option ℚ

/-- One entry of `tempo_data["bpm_changes"]`. -/
structure BpmChange where
  from_bpm : ℚ
  to_bpm : ℚ
  offset : ℚ
  measure : ℤ

/-- Python truthiness of `tempo_info["bpm"]`: None and 0 are falsy. -/
def pyTruthyBpm (b : Option ℚ) : Bool :=
  match b with
  | none => false
  | some q => q != 0

/-- Python `int(q)`: truncation toward zero. -/
def pyTrunc (q : ℚ) : ℤ := if 0 ≤ q then ⌊q⌋ else ⌈q⌉

/-- `_offset_to_measure` (lines 728-735): `int(offset / 4.0) + 1`. -/
def offset_to_measure (offset : ℚ) : ℤ := pyTrunc (offset / 4) + 1

/-- The `tempo_markings` list in construction order: all tempo indications
(lines 629-646), then all metronome marks (lines 649-668). -/
def tempoMarkingsOf (s : TempoScore) : List TempoMarking :=
  (s.tempo_indications.map fun ti =>
    { type := "indication", text := ti.text, offset := ti.offset,
      bpm := ti.soundingQuarterBPM }) ++
  (s.metronome_marks.map fun mm =>
    { type := "metronome", text := mm.text, offset := mm.offset,
      bpm := mm.number })

/-- Stable insertion into a list sorted by offset (later elements go after
equal-offset earlier ones, as Python's stable `sorted` does). -/
def insertByOffset (x : TempoMarking) : List TempoMarking → List TempoMarking
  | [] => [x]
  | y :: ys => if x.offset < y.offset then x :: y :: ys else y :: insertByOffset x ys

/-- `sorted(tempo_markings, key=lambda x: x["offset"])`. -/
def sortByOffset (l : List TempoMarking) : List TempoMarking :=
  l.foldl (fun acc x => insertByOffset x acc) []

/-- The change-detection fold of lines 670-692 over the offset-sorted
markings: accumulates (bpm_changes, initial_bpm, previous_bpm). -/
def changesFold (markings : List TempoMarking) :
    List BpmChange × Option ℚ × Option ℚ :=
  markings.foldl
    (fun acc m =>
      match acc with
      | (chs, initial, prev) =>
        if pyTruthyBpm m.bpm then
          let b := m.bpm.getD 0
          let chs1 :=
            match prev with
            | some p =>
              if p ≠ b then
                chs ++ [{ from_bpm := p, to_bpm := b, offset := m.offset,
                          measure := offset_to_measure m.offset }]
              else chs
            | none => chs
          let initial1 := if initial.isNone then some b else initial
          (chs1, initial1, some b)
        else acc)
    ([], none, none)

/-- `tempo_data` as `analyze_tempo`'s try block would build it. -/
structure TempoData where
  tempo_markings : List TempoMarking
  bpm_changes : List BpmChange
  initial_bpm : Option ℚ
  average_bpm : Option ℚ
  has_tempo_changes : Bool

/-- The body of `analyze_tempo`'s try block (lines 610-717), as it would run
with a binding for `tempo` in scope.  `all_tempos` collects the truthy BPMs
in construction order; the average is their unweighted mean; the estimation
fallback fires only when no markings were collected. -/
def tempoBody (s : TempoScore) : TempoData :=
  let markings := tempoMarkingsOf s
  let all_tempos := markings.filterMap fun m =>
    if pyTruthyBpm m.bpm then m.bpm else none
  let folded := changesFold (sortByOffset markings)
  { tempo_markings :=
      if markings.isEmpty then
        match s.estimated with
        | some b => [{ type := "estimated", text := "Estimated", offset := 0, bpm := b }]
        | none => []
      else markings
    bpm_changes := folded.1
    initial_bpm := folded.2.1
    average_bpm :=
      if all_tempos.isEmpty then none
      else some (all_tempos.sum / all_tempos.length)
    has_tempo_changes := !folded.1.isEmpty }

/-- The tempo facet's cached value: data, or the error marker written by the
except handler. -/
inductive TempoFacet where
  | data (d : TempoData)
  | err (msg : String)

/-- Shallow embedding of `analyze_tempo`: the try block first evaluates the
global name `tempo` (line 620); since the module never binds it, a NameError
is raised and the handler caches `{"error": f"Error: {e}"}`. -/
def analyze_tempo (s : TempoScore) : TempoFacet :=
  if music21AnalyzerModuleNames.contains "tempo" then
    TempoFacet.data (tempoBody s)
  else
    TempoFacet.err "Error: name 'tempo' is not defined"

/- # THEOREMS -/

/- ## C7 -/

theorem base_memory_eq_clamp (t : ℚ) (j : ℕ) :
    base_memory t j = clampSpec 1.0 2.5 (0.6 * t / (max 1 j : ℕ)) := by
  unfold base_memory clampSpec
  rw [mul_comm t 0.6, min_max_distrib_left]
  norm_num

theorem base_memory_lower (t : ℚ) (j : ℕ) : 1 ≤ base_memory t j := by
  unfold base_memory
  have h10 : (1.0 : ℚ) = 1 := by norm_num
  rw [h10]
  exact le_min (by norm_num) (le_max_left _ _)

theorem base_memory_upper (t : ℚ) (j : ℕ) : base_memory t j ≤ 2.5 := by
  unfold base_memory
  exact min_le_left _ _

theorem base_memory_antitone (t : ℚ) (ht : 0 ≤ t) {j j' : ℕ} (hj : j ≤ j') :
    base_memory t j' ≤ base_memory t j := by
  unfold base_memory
  have hpos : (0 : ℚ) < (max 1 j : ℕ) := by
    have h1 : 1 ≤ max 1 j := le_max_left _ _
    exact_mod_cast Nat.lt_of_lt_of_le Nat.zero_lt_one h1
  have hle : ((max 1 j : ℕ) : ℚ) ≤ ((max 1 j' : ℕ) : ℚ) := by
    exact_mod_cast max_le_max (le_refl 1) hj
  have hnum : 0 ≤ t * 0.6 := by positivity
  have hdiv : (t * 0.6) / (max 1 j' : ℕ) ≤ (t * 0.6) / (max 1 j : ℕ) :=
    div_le_div_of_nonneg_left hnum hpos hle
  exact min_le_min (le_refl _) (max_le_max (le_refl _) hdiv)

/-- C7: for every `running_jobs ≥ 0` and `total_memory_GB ≥ 0` the memory
ceiling equals `0.6 · total / max(1, jobs)` clamped to `[1.0, 2.5]`, always
lies in `[1.0, 2.5]`, and is monotonically non-increasing in `running_jobs`. -/
theorem C7_memory_ceiling (t : ℚ) (j j' : ℕ) (ht : 0 ≤ t) (hj : j ≤ j') :
    base_memory t j = clampSpec 1.0 2.5 (0.6 * t / (max 1 j : ℕ)) ∧
    (1 ≤ base_memory t j ∧ base_memory t j ≤ 2.5) ∧
    base_memory t j' ≤ base_memory t j :=
  ⟨base_memory_eq_clamp t j,
   ⟨base_memory_lower t j, base_memory_upper t j⟩,
   base_memory_antitone t ht hj⟩

/-- Witness for C7 at total memory 8 GiB, 1 and 2 running jobs. -/
theorem C7_memory_ceiling_witness :
    base_memory 8 1 = clampSpec 1.0 2.5 (0.6 * 8 / (max 1 1 : ℕ)) ∧
    (1 ≤ base_memory 8 1 ∧ base_memory 8 1 ≤ 2.5) ∧
    base_memory 8 2 ≤ base_memory 8 1 :=
  C7_memory_ceiling 8 1 2 (by norm_num) (by norm_num)

/- ## C8 -/

/-- C8 counterexample: a generated archive of exactly 100 bytes passes
validation, refuting the claim that every archive of at most 100 bytes fails
(and hence that success guarantees size strictly above 100 bytes). -/
theorem C8_counterexample :
    locateAndValidateMxl [("output.mxl", 100)] = Except.ok ("output.mxl", 100) := by
  rfl

/-- C8 amended: validation fails exactly for archives strictly smaller than
100 bytes and succeeds exactly for archives of at least 100 bytes, independent
of content; success of the invoker's locate-and-validate step guarantees
archive size ≥ 100 bytes. -/
theorem C8_archive_validation :
    (∀ n : ℕ, validateMxlSize n = Except.ok () ↔ 100 ≤ n) ∧
    (∀ (entries : List (String × ℕ)) (f : String × ℕ),
      locateAndValidateMxl entries = Except.ok f → 100 ≤ f.2) := by
  constructor
  · intro n
    unfold validateMxlSize
    split
    · simp
      omega
    · simp
      omega
  · intro entries f h
    unfold locateAndValidateMxl at h
    split at h
    · exact absurd h (by simp)
    · rename_i f0 rest heq
      unfold validateMxlSize at h
      split at h
      · exact absurd h (by simp)
      · rename_i u hif
        split at hif
        · exact absurd hif (by simp)
        · rename_i hlt
          simp only [Except.ok.injEq] at h
          subst h
          omega

/-- Witness for C8's second conjunct at a concrete directory listing. -/
theorem C8_archive_validation_witness :
    100 ≤ (("score.mxl", 2048) : String × ℕ).2 :=
  C8_archive_validation.2 [("partial.omr", 10), ("score.mxl", 2048)]
    ("score.mxl", 2048) (by rfl)

/- ## C9 -/

/-- C9 counterexample: when deletion of an existing temp directory fails, the
exception is re-raised to the caller (the task errors), refuting the claim
that cleanup never raises. -/
theorem C9_counterexample :
    (cleanup_temp_files true false { processed := true, results := "r" }).outcome
      = Except.error "Error cleaning up temporary files" := by
  rfl

/-- C9 amended: for every job, a failing deletion is logged and then
re-raised to the caller (it raises exactly when the directory exists and
`rmtree` fails), and a cleanup run — failed or not — never changes the job's
persisted state. -/
theorem C9_cleanup_behavior (dirExists rmtreeOk : Bool) (record : JobRecord) :
    (cleanup_temp_files dirExists rmtreeOk record).record = record ∧
    ((cleanup_temp_files dirExists rmtreeOk record).outcome
        = Except.error "Error cleaning up temporary files"
      ↔ dirExists = true ∧ rmtreeOk = false) ∧
    ((cleanup_temp_files dirExists rmtreeOk record).outcome
        = Except.error "Error cleaning up temporary files" →
      "Error cleaning up temporary files"
        ∈ (cleanup_temp_files dirExists rmtreeOk record).logs) := by
  cases dirExists <;> cases rmtreeOk <;>
    simp [cleanup_temp_files]

/-- Witness for C9's logging conjunct at a concrete failing run. -/
theorem C9_cleanup_behavior_witness :
    "Error cleaning up temporary files"
      ∈ (cleanup_temp_files true false { processed := false, results := "" }).logs :=
  (C9_cleanup_behavior true false { processed := false, results := "" }).2.2
    (by rfl)

/- ## C2 -/

/-- C2 counterexample: when the uploaded input file is missing the task
raises and schedules no cleanup, refuting the claim that every execution —
success or failure — schedules the deferred cleanup exactly once. -/
theorem C2_counterexample :
    process_score
      { fetchOk := true, inputExists := false, audiverisDirExists := true,
        audiverisOutcome := AudiverisOutcome.ok,
        outputFiles := [("output.mxl", 2048)], renameOk := true,
        parseOk := true, saveOk := true, saveInHandlerOk := true }
      = { cleanupScheduled := 0, raised := true } := by
  rfl

/-- C2 amended: the deferred cleanup is scheduled exactly once when and only
when the task body completes without an uncaught exception (per-facet
analysis failures and a handled save failure still count as completion); a
run that re-raises schedules no cleanup, and no run ever schedules it more
than once. -/
theorem C2_cleanup_scheduling (e : PipelineEnv) :
    (process_score e).cleanupScheduled
      = (if (process_score e).raised then 0 else 1) ∧
    ((process_score e).raised = false ↔ processScoreBody e = Except.ok ()) := by
  unfold process_score
  cases hb : processScoreBody e with
  | ok u => cases u; simp [hb]
  | error msg => simp [hb]

/- ## C1 -/

/-- C1 counterexample: a save-time state in which the chords facet carries an
error marker and the notable_elements facet is the error-marker dictionary is
still marked processed, refuting the claim that `processed` implies all five
core facets are free of error markers. -/
theorem C1_counterexample :
    save_results analysisWithChordError "/api/serve-musicxml/1/" "/api/serve-midi/1/"
      = true ∧
    coreFacetsErrFree analysisWithChordError = false :=
  ⟨rfl, rfl⟩

/-- C1 amended: whenever the orchestrator marks a job processed, the key,
parts and time_signature facets are present (truthy) and free of error
markers, the chords facet is present (possibly empty, and allowed to carry an
error marker — only `is not None` is checked), the notable_elements and
score_structure facets are present (allowed to be error markers), the
MusicXML URL is set without an error marker, and MIDI-derivative availability
does not influence the processed flag. -/
theorem C1_processed_invariant (a : TaskAnalysis) (musicxml_url midi_url : String)
    (h : save_results a musicxml_url midi_url = true) :
    (truthyStr a.key = true ∧ strHasErr a.key = false) ∧
    (a.parts.isEmpty = false ∧ a.parts.any strHasErr = false) ∧
    a.chords.isSome = true ∧
    (truthyStr a.time_signature = true ∧ strHasErr a.time_signature = false) ∧
    a.notable_elements.isSome = true ∧
    a.score_structure.isSome = true ∧
    (truthyStr musicxml_url = true ∧ strHasErr musicxml_url = false) ∧
    (∀ m1 m2 : String,
      save_results a musicxml_url m1 = save_results a musicxml_url m2) := by
  unfold save_results core_valid additional_valid at h
  simp only [Bool.and_eq_true, Bool.not_eq_true'] at h
  refine ⟨⟨h.1.1.1.1.1.1.1.1.1, h.1.1.1.1.1.1.1.1.2⟩,
    ⟨h.1.1.1.1.1.1.1.2, h.1.1.1.1.1.1.2⟩,
    h.1.1.1.1.1.2, ⟨h.1.1.1.1.2, h.1.1.1.2⟩, h.2.1, h.2.2,
    ⟨h.1.1.2, h.1.2⟩, fun m1 m2 => rfl⟩

/-- Witness for C1 at a healthy save-time state. -/
theorem C1_processed_invariant_witness :
    (truthyStr analysisAllGood.key = true ∧ strHasErr analysisAllGood.key = false) ∧
    (analysisAllGood.parts.isEmpty = false ∧
      analysisAllGood.parts.any strHasErr = false) ∧
    analysisAllGood.chords.isSome = true ∧
    (truthyStr analysisAllGood.time_signature = true ∧
      strHasErr analysisAllGood.time_signature = false) ∧
    analysisAllGood.notable_elements.isSome = true ∧
    analysisAllGood.score_structure.isSome = true ∧
    (truthyStr "/api/serve-musicxml/2/" = true ∧
      strHasErr "/api/serve-musicxml/2/" = false) ∧
    (∀ m1 m2 : String,
      save_results analysisAllGood "/api/serve-musicxml/2/" m1
        = save_results analysisAllGood "/api/serve-musicxml/2/" m2) :=
  C1_processed_invariant analysisAllGood "/api/serve-musicxml/2/"
    "Error: MIDI generation failed" (by rfl)

/- ## C10 -/

/-- C10 counterexample: the instrument name "Bass Violin" contains "bass",
yet the part is classified "strings" — the keyword "violin" precedes "bass"
in the mapping's insertion order — refuting the claim that every part whose
instrument name or part name contains "bass" is classified "vocal", never
"strings" or "woodwinds". -/
theorem C10_counterexample :
    instrument_family true (some "Bass Violin") "Part 1" = "strings" ∧
    hasSubStr (pyLower "Bass Violin") "bass" = true :=
  ⟨rfl, rfl⟩

/-- C10 amended: the duplicate "bass" key leaves the mapping with
"bass" → "vocal" at the original (fifth) position; matching is by substring
in table order, so any part whose consulted name (the instrument name when
instrument metadata exists, else the part name) contains "bass" but none of
the earlier keywords piano, violin, viola, cello is classified "vocal" — in
particular "Double Bass" and "Bassoon" map to "vocal", never "strings" or
"woodwinds".  A consulted name containing an earlier keyword as well (e.g.
"Bass Violin") takes that earlier keyword's family instead. -/
theorem C10_bass_vocal :
    family_mapping =
      [("piano", "keyboard"),
       ("violin", "strings"), ("viola", "strings"), ("cello", "strings"),
       ("bass", "vocal"), ("guitar", "strings"),
       ("flute", "woodwinds"), ("clarinet", "woodwinds"), ("oboe", "woodwinds"),
       ("bassoon", "woodwinds"), ("saxophone", "woodwinds"),
       ("trumpet", "brass"), ("horn", "brass"), ("trombone", "brass"),
       ("tuba", "brass"),
       ("drums", "percussion"), ("timpani", "percussion"),
       ("voice", "vocal"), ("soprano", "vocal"), ("alto", "vocal"),
       ("tenor", "vocal")] ∧
    (∀ (hasInstrElem : Bool) (elemName : Option String) (partName : String),
      hasSubStr (pyLower (if hasInstrElem then elemName.getD "" else partName))
        "bass" = true →
      hasSubStr (pyLower (if hasInstrElem then elemName.getD "" else partName))
        "piano" = false →
      hasSubStr (pyLower (if hasInstrElem then elemName.getD "" else partName))
        "violin" = false →
      hasSubStr (pyLower (if hasInstrElem then elemName.getD "" else partName))
        "viola" = false →
      hasSubStr (pyLower (if hasInstrElem then elemName.getD "" else partName))
        "cello" = false →
      instrument_family hasInstrElem elemName partName = "vocal") ∧
    instrument_family true (some "Double Bass") "Part 1" = "vocal" ∧
    instrument_family true (some "Bassoon") "Part 2" = "vocal" ∧
    instrument_family false none "Bass" = "vocal" := by
  refine ⟨by rfl, ?_, rfl, rfl, rfl⟩
  intro hasInstrElem elemName partName hbass hpiano hviolin hviola hcello
  have hmap :
      family_mapping =
        [("piano", "keyboard"),
         ("violin", "strings"), ("viola", "strings"), ("cello", "strings"),
         ("bass", "vocal"), ("guitar", "strings"),
         ("flute", "woodwinds"), ("clarinet", "woodwinds"), ("oboe", "woodwinds"),
         ("bassoon", "woodwinds"), ("saxophone", "woodwinds"),
         ("trumpet", "brass"), ("horn", "brass"), ("trombone", "brass"),
         ("tuba", "brass"),
         ("drums", "percussion"), ("timpani", "percussion"),
         ("voice", "vocal"), ("soprano", "vocal"), ("alto", "vocal"),
         ("tenor", "vocal")] := by rfl
  unfold instrument_family
  cases hasInstrElem with
  | true =>
    simp only [if_true] at hbass hpiano hviolin hviola hcello ⊢
    rw [hmap]
    simp only [lookupFamily, hpiano, hviolin, hviola, hcello, hbass,
      Bool.false_eq_true, if_false, if_true]
  | false =>
    simp only [Bool.false_eq_true, if_false] at hbass hpiano hviolin hviola hcello ⊢
    rw [hmap]
    simp only [lookupFamily, hpiano, hviolin, hviola, hcello, hbass,
      Bool.false_eq_true, if_false, if_true]

/-- Witness for C10's universal clause at the instrument name
"Contrabassoon". -/
theorem C10_bass_vocal_witness :
    instrument_family true (some "Contrabassoon") "Part 1" = "vocal" :=
  C10_bass_vocal.2.1 true (some "Contrabassoon") "Part 1"
    (by decide) (by decide) (by decide) (by decide) (by decide)

/- ## C5 -/

/-- C5: the source's ensemble detection coincides with the claim's ordered
fallback chain on every input (including rule (4)'s overwriting of the part
names with Soprano/Alto/Tenor/Bass), and in particular a 4-part score named
exactly Soprano, Alto, Tenor, Bass classifies as SATB even when its pitch
ranges (all notes at MIDI 20) would not qualify. -/
theorem C5_ensemble_chain :
    (∀ (parts : List EnsePart) (instruments : List String),
      detect_ensemble_type parts instruments = ensembleChainSpec parts instruments) ∧
    detect_ensemble_type satbNamedLowParts ["Voice", "Voice", "Voice", "Voice"]
      = ("SATB", ["Soprano", "Alto", "Tenor", "Bass"]) ∧
    rangesFitSATB satbNamedLowParts = false := by
  refine ⟨?_, by rfl, by rfl⟩
  intro parts instruments
  unfold detect_ensemble_type ensembleChainSpec ruleNamedSATB rulePianoSolo
    ruleStringQuartet ruleRangeSATB
  cases h4 : (parts.length == 4) <;>
    cases hfit : rangesFitSATB parts <;>
      simp [h4, hfit]

/- ## C6 -/

/-- C6 counterexample: a 4-part score named Soprano/Alto/Tenor/Bass with
lyrics on the soprano part only is classified "vocal", refuting the claim
that "vocal" requires lyrics on all four parts. -/
theorem C6_counterexample :
    music_type satbLyricsOnSoprano = "vocal" ∧
    satbLyricsOnSoprano.all (fun p => p.hasLyrics) = false :=
  ⟨rfl, rfl⟩

/-- C6 amended: for a four-part score whose parts are named Soprano, Alto,
Tenor and Bass, the music_type facet is "vocal" exactly when lyrics are
present on at least one part, and "instrumental" otherwise (never "mixed",
since the SATB part names all denote vocal roles). -/
theorem C6_music_type (parts : List VocalPart)
    (h : parts.map (fun p => p.name) = ["Soprano", "Alto", "Tenor", "Bass"]) :
    music_type parts
      = (if parts.any (fun p => p.hasLyrics) then "vocal" else "instrumental") := by
  rcases parts with _ | ⟨a, parts⟩
  · exact absurd h (by simp)
  rcases parts with _ | ⟨b, parts⟩
  · exact absurd h (by simp)
  rcases parts with _ | ⟨c, parts⟩
  · exact absurd h (by simp)
  rcases parts with _ | ⟨d, parts⟩
  · exact absurd h (by simp)
  rcases parts with _ | ⟨e, parts⟩
  case cons.cons.cons.cons.cons => exact absurd h (by simp)
  simp only [List.map_cons, List.map_nil, List.cons.injEq, and_true] at h
  obtain ⟨ha, hb, hc, hd⟩ := h
  unfold music_type
  simp only [List.map_cons, List.map_nil, ha, hb, hc, hd, List.zip_cons_cons,
    List.zip_nil_right, List.all_cons, List.all_nil,
    show satbRoles.contains (pyLower "Soprano") = true from by decide,
    show satbRoles.contains (pyLower "Alto") = true from by decide,
    show satbRoles.contains (pyLower "Tenor") = true from by decide,
    show satbRoles.contains (pyLower "Bass") = true from by decide,
    Bool.or_true, Bool.and_self, Bool.and_true]
  cases hAny : ([a, b, c, d] : List VocalPart).any (fun p => p.hasLyrics) <;>
    simp [hAny]

/-- Witness for C6 at a concrete SATB choir with lyrics on every part. -/
theorem C6_music_type_witness :
    music_type
      [{ name := "Soprano", instrName := some "Voice", hasLyrics := true },
       { name := "Alto", instrName := some "Voice", hasLyrics := true },
       { name := "Tenor", instrName := some "Voice", hasLyrics := true },
       { name := "Bass", instrName := some "Voice", hasLyrics := true }]
      = (if
          ([{ name := "Soprano", instrName := some "Voice", hasLyrics := true },
            { name := "Alto", instrName := some "Voice", hasLyrics := true },
            { name := "Tenor", instrName := some "Voice", hasLyrics := true },
            { name := "Bass", instrName := some "Voice", hasLyrics := true }]
            : List VocalPart).any (fun p => p.hasLyrics)
         then "vocal" else "instrumental") :=
  C6_music_type _ (by rfl)

/- ## C3 -/

/-- Helper: the successful-parse dictionary in its final explicit form — the
four replaced-in-place initial keys keep their initial positions, the three
new keys are appended in assignment order. -/
theorem successAnalysis_eq (f : FacetOutcomes) :
    successAnalysis f =
      [("key", f.keyV), ("measures", f.measuresV),
       ("instrumentation", f.instrV), ("tempo", f.tempoV),
       ("meter_changes", f.meterV), ("parts", f.partsV),
       ("chords", f.chordsV), ("time_signature", f.tsV),
       ("notable_elements", f.notableV), ("score_structure", f.structV),
       ("text_content", f.textV)] := by
  simp [successAnalysis, dictSet, initAnalysis]

/-- C3 counterexample: when the notation-document parse raises, the chords
facet is bound to the empty list — not an error marker — refuting the claim
that every failed facet's key is bound to an error-marker value. -/
theorem C3_counterexample :
    dictGet (analyze_with_music21 (Except.error "parse failure")) "chords"
      = some (PyVal.vlist []) ∧
    isErrMarker (PyVal.vlist []) = false :=
  ⟨rfl, rfl⟩

/-- C3 amended: on every input — parse success or parse failure — the
Analysis Result contains all eleven facet keys; on parse failure every facet
except chords is bound to an error marker while chords is bound to the empty
list; on parse success each facet key is bound exactly to its own guarded
facet outcome (so one facet's failure cannot remove or alter a sibling's
key), and each facet's guard turns an internal error into an error marker
(dict, string and list shaped respectively). -/
theorem C3_facet_keys :
    (∀ parseRes : Except String FacetOutcomes,
      (facetKeys.all fun k =>
        (dictGet (analyze_with_music21 parseRes) k).isSome) = true) ∧
    (∀ e : String,
      ((facetKeys.filter fun k => k != "chords").all fun k =>
        (match dictGet (analyze_with_music21 (Except.error e)) k with
         | some v => isErrMarker v
         | none => false)) = true ∧
      dictGet (analyze_with_music21 (Except.error e)) "chords"
        = some (PyVal.vlist [])) ∧
    (∀ f : FacetOutcomes,
      dictGet (analyze_with_music21 (Except.ok f)) "key" = some f.keyV ∧
      dictGet (analyze_with_music21 (Except.ok f)) "parts" = some f.partsV ∧
      dictGet (analyze_with_music21 (Except.ok f)) "chords" = some f.chordsV ∧
      dictGet (analyze_with_music21 (Except.ok f)) "time_signature" = some f.tsV ∧
      dictGet (analyze_with_music21 (Except.ok f)) "notable_elements"
        = some f.notableV ∧
      dictGet (analyze_with_music21 (Except.ok f)) "score_structure"
        = some f.structV ∧
      dictGet (analyze_with_music21 (Except.ok f)) "measures" = some f.measuresV ∧
      dictGet (analyze_with_music21 (Except.ok f)) "instrumentation"
        = some f.instrV ∧
      dictGet (analyze_with_music21 (Except.ok f)) "meter_changes"
        = some f.meterV ∧
      dictGet (analyze_with_music21 (Except.ok f)) "tempo" = some f.tempoV ∧
      dictGet (analyze_with_music21 (Except.ok f)) "text_content"
        = some f.textV) ∧
    (∀ e : String,
      isErrMarker (facetGuardDict (Except.error e)) = true ∧
      isErrMarker (PyVal.vstr (facetGuardStr (Except.error e))) = true ∧
      isErrMarker (PyVal.vlist (facetGuardList (Except.error e))) = true) := by
  refine ⟨?_, ?_, ?_, ?_⟩
  · intro parseRes
    cases parseRes with
    | ok f =>
      rw [show analyze_with_music21 (Except.ok f) = successAnalysis f from rfl,
        successAnalysis_eq]
      simp [facetKeys, dictGet]
    | error e =>
      simp [analyze_with_music21, facetKeys, errorAnalysis, dictGet]
  · intro e
    constructor
    · simp [analyze_with_music21, facetKeys, errorAnalysis, dictGet, isErrMarker,
        show strHasErr "Error" = true from by decide]
    · simp [analyze_with_music21, errorAnalysis, dictGet]
  · intro f
    rw [show analyze_with_music21 (Except.ok f) = successAnalysis f from rfl,
      successAnalysis_eq]
    simp [dictGet]
  · intro e
    cases e with
    | mk data => exact ⟨rfl, rfl, rfl⟩

/- ## C4 -/

/-- C4: the module files/music21_analyzer.py never binds the name `tempo`,
so `analyze_tempo` raises a NameError on every input and the tempo facet is
always bound to the error marker — it never returns the collected tempo
markings, contrary to the claim; shown in particular at a score with one
explicit 120-BPM metronome mark. -/
theorem C4_tempo_always_error :
    music21AnalyzerModuleNames.contains "tempo" = false ∧
    (∀ s : TempoScore,
      analyze_tempo s = TempoFacet.err "Error: name 'tempo' is not defined") ∧
    analyze_tempo
      { tempo_indications := [],
        metronome_marks := [{ text := "quarter=120", offset := 0, number := some 120 }],
        estimated := none }
      = TempoFacet.err "Error: name 'tempo' is not defined" :=
  ⟨rfl, fun _ => rfl, rfl⟩

end NotaDb
